import Mathlib

/-!
Verification of the gobbledata-backend anomaly-detection engine
(`src/services/insights.service.js`) and delivery orchestrator
(`src/services/scheduler.service.js`).

Modelling conventions:
* JS numbers are modelled as exact rationals (`ℚ`); `Math.sqrt` is modelled
  by `Rat.sqrt`, the exact rational square root (it agrees with the real
  square root on rationals whose numerator and denominator are perfect
  squares, which is the shape of every concrete input used below).
  Division by zero follows the Lean convention `x / 0 = 0`; in the one place
  the source can divide by a zero standard deviation the numerator is also
  zero (a zero-variance series is constant, so every sample equals its
  baseline), where JS produces `NaN`, and both conventions make the
  `|zScore| >= 2` emission test false.
* Calendar dates are modelled as integers counting days since the Unix
  epoch; `new Date(d).getDay()` becomes `(d + 4) % 7` (1970-01-01 was a
  Thursday).  Timestamps (`Date.now()`, `last_email_sent_at`, …) are
  integers counting milliseconds.
* A possibly-missing / null / falsy JS field is an `Option`; the source's
  `day[metricName] || 0` read becomes `Option.getD · 0`.
* `Array.prototype.sort` (a stable sort by the comparator) is modelled by
  `List.mergeSort` with the Boolean relation `comparator a b ≤ 0`.
-/

/-! ## Statistical constants (insights.service.js lines 4-7) -/

def Z_SCORE_THRESHOLD : ℚ := 2
def MIN_DATA_POINTS : Nat := 7
def TREND_WINDOW : Nat := 5

/-! ## Data model -/

/-- One day of GA4 metrics.  The five tracked metric fields are `Option ℚ`
because the JS objects may lack a field (or hold `null`); `date` is the
day's calendar date as days since the Unix epoch. -/
structure MetricSample where
  date : ℤ
  sessions : Option ℚ
  totalUsers : Option ℚ
  conversions : Option ℚ
  engagementRate : Option ℚ
  bounceRate : Option ℚ
deriving DecidableEq, Repr

/-- An anomaly insight as produced by `analyzeMetric`
(insights.service.js lines 161-190). -/
structure AnomalyInsight where
  date : ℤ
  metric : String
  currentValue : ℚ
  expectedValue : ℚ
  percentChange : ℚ
  zScore : ℚ
  confidence : ℚ
  trendType : String
  direction : String
  impactScore : ℚ
  headline : String
  explanation : String
  actionItems : List String
deriving DecidableEq, Repr

instance : Inhabited AnomalyInsight :=
  ⟨⟨0, "", 0, 0, 0, 0, 0, "", "", 0, "", "", []⟩⟩

/-- Field access `day[metricName]` for the five tracked metric names. -/
def metricField (d : MetricSample) (metricName : String) : Option ℚ :=
  if metricName = "sessions" then d.sessions
  else if metricName = "totalUsers" then d.totalUsers
  else if metricName = "conversions" then d.conversions
  else if metricName = "engagementRate" then d.engagementRate
  else if metricName = "bounceRate" then d.bounceRate
  else none

/-- The source's coercing read `day[metricName] || 0`: a missing, null or
otherwise falsy field (including an explicit `0`) is read as `0`. -/
def readMetric (d : MetricSample) (metricName : String) : ℚ :=
  (metricField d metricName).getD 0

/-- `new Date(day.date).getDay()` on an epoch-day date. -/
def jsGetDay (date : ℤ) : ℤ :=
  (date + 4) % 7

/-! ## Action items library (insights.service.js lines 10-61) -/

def ACTION_LIBRARY (key : String) : Option (List String) :=
  if key = "bounceRate_up" then some
    ["Check mobile performance using Google PageSpeed Insights",
     "Review traffic sources in GA4 to identify low-quality channels",
     "A/B test landing page design and quiz flow"]
  else if key = "bounceRate_down" then some
    ["Document what improved (traffic source, UX change, etc.)",
     "Scale successful traffic channels",
     "Apply learnings to other pages"]
  else if key = "sessions_up" then some
    ["Ensure infrastructure can handle traffic spike",
     "Capture leads while traffic is high (pop-ups, CTAs)",
     "Analyze traffic sources to understand what drove growth"]
  else if key = "sessions_down" then some
    ["Check if marketing campaigns paused or ads stopped",
     "Review SEO rankings for keyword drops",
     "Investigate technical issues (site down, crawl errors)"]
  else if key = "totalUsers_up" then some
    ["Capture new user data (email signups, surveys)",
     "Optimize onboarding flow for first-time visitors",
     "Track where new users came from in GA4"]
  else if key = "totalUsers_down" then some
    ["Review marketing spend and campaign performance",
     "Check if competitor launched similar product",
     "Audit site speed and technical issues"]
  else if key = "engagementRate_up" then some
    ["Document successful content/features driving engagement",
     "Double down on high-engagement pages",
     "Test similar approaches on other pages"]
  else if key = "engagementRate_down" then some
    ["Check for broken features or page errors",
     "Review content quality and relevance",
     "A/B test new CTAs and interactive elements"]
  else if key = "conversions_up" then some
    ["Scale what's working (traffic source, offer, CTA)",
     "Capture customer feedback to improve further",
     "Test higher price points or upsells"]
  else if key = "conversions_down" then some
    ["Check conversion funnel for drop-off points",
     "Review form fields (too many? confusing?)",
     "Test different offers or CTAs"]
  else none

/-- `getActionItems` (insights.service.js lines 360-369). -/
def getActionItems (metricName direction : String) : List String :=
  (ACTION_LIBRARY (metricName ++ "_" ++ direction)).getD
    ["Review recent changes that might have caused this shift",
     "Check GA4 for additional context and related metrics",
     "Monitor over next few days to confirm this is a trend"]

/-! ## Statistical helpers -/

/-- `calculateSeasonalBaseline` (insights.service.js lines 201-227): group
samples by weekday of their date, average each group, falling back to the
overall mean for weekdays with no samples.  Returned as a function from the
weekday to the baseline value. -/
def calculateSeasonalBaseline (sortedData : List MetricSample)
    (metricName : String) : ℤ → ℚ :=
  fun dayOfWeek =>
    let group := (sortedData.filter (fun d => jsGetDay d.date = dayOfWeek)).map
      (fun d => readMetric d metricName)
    if group.length > 0 then
      group.sum / (group.length : ℚ)
    else
      let allValues := sortedData.map (fun d => readMetric d metricName)
      allValues.sum / (allValues.length : ℚ)

/-- `calculateStandardDeviation` (insights.service.js lines 232-238):
population standard deviation of the value list. -/
def calculateStandardDeviation (values : List ℚ) : ℚ :=
  let mean := values.sum / (values.length : ℚ)
  let squaredDiffs := values.map (fun val => (val - mean) ^ 2)
  let variance := squaredDiffs.sum / (values.length : ℚ)
  Rat.sqrt variance

/-- `calculateSlope` (insights.service.js lines 264-274): ordinary
least-squares slope of the values against their position index. -/
def calculateSlope (values : List ℚ) : ℚ :=
  let n : ℚ := values.length
  let xValues : List ℚ := (List.range values.length).map (fun i => (i : ℚ))
  let sumX := xValues.sum
  let sumY := values.sum
  let sumXY := ((xValues.zip values).map (fun p => p.1 * p.2)).sum
  let sumX2 := (xValues.map (fun x => x * x)).sum
  (n * sumXY - sumX * sumY) / (n * sumX2 - sumX * sumX)

/-- `classifyTrend` (insights.service.js lines 243-259): look at the
trailing `TREND_WINDOW` samples ending at the target date; `trend` iff the
fitted slope exceeds `0.1` in absolute value, `spike` otherwise (also when
fewer than `TREND_WINDOW` prior samples exist; a JS `findIndex` miss yields
`-1`, which also classifies as `spike`). -/
def classifyTrend (sortedData : List MetricSample) (metricName : String)
    (targetDate : ℤ) : String :=
  match sortedData.findIdx? (fun d => d.date = targetDate) with
  | none => "spike"
  | some targetIndex =>
    if targetIndex < TREND_WINDOW then "spike"
    else
      let recentWindow := (sortedData.drop (targetIndex - TREND_WINDOW + 1)).take
        (TREND_WINDOW)
      let values := recentWindow.map (fun d => readMetric d metricName)
      let slope := calculateSlope values
      if |slope| > 1/10 then "trend" else "spike"

/-- `zScoreToConfidence` (insights.service.js lines 279-285). -/
def zScoreToConfidence (zScore : ℚ) : ℚ :=
  let absZ := |zScore|
  if absZ ≥ 3 then 99.7
  else if absZ ≥ 2.5 then 98.8
  else if absZ ≥ 2 then 95.4
  else 90.0

/-! ## Display helpers (insights.service.js lines 290-355).  These produce
strings for the headline/explanation fields; number rendering models
`toFixed` as exact decimal rounding of the rational value. -/

/-- `getHumanMetricName` (insights.service.js lines 332-342). -/
def getHumanMetricName (metricName : String) : String :=
  if metricName = "sessions" then "Sessions"
  else if metricName = "totalUsers" then "Users"
  else if metricName = "conversions" then "Conversions"
  else if metricName = "engagementRate" then "Engagement Rate"
  else if metricName = "bounceRate" then "Bounce Rate"
  else if metricName = "totalRevenue" then "Revenue"
  else metricName

/-- `Number.prototype.toFixed(1)` on a non-negative rational. -/
def toFixed1 (v : ℚ) : String :=
  let t : ℤ := round (v * 10)
  s!"{t / 10}.{(t % 10).natAbs}"

/-- `Number.prototype.toFixed(2)` on a non-negative rational. -/
def toFixed2 (v : ℚ) : String :=
  let t : ℤ := round (v * 100)
  let cents := (t % 100).natAbs
  s!"{t / 100}." ++ (if cents < 10 then "0" else "") ++ s!"{cents}"

/-- JS default number-to-string rendering, restricted to the values the
source interpolates (integers and one-decimal confidence labels). -/
def jsNumberToString (q : ℚ) : String :=
  if q.den = 1 then s!"{q.num}" else toFixed1 q

/-- `formatMetricValue` (insights.service.js lines 347-355).
`metricName.includes("Rate")` is expressed via `String.splitOn`. -/
def formatMetricValue (metricName : String) (value : ℚ) : String :=
  if (metricName.splitOn "Rate").length > 1 then
    toFixed1 (value * 100) ++ "%"
  else if metricName = "totalRevenue" then
    "$" ++ toFixed2 value
  else
    s!"{round value}"

/-- `generateHeadline` (insights.service.js lines 290-299). -/
def generateHeadline (metricName : String) (percentChange : ℚ)
    (trendType : String) (zScore : ℚ) : String :=
  let humanMetric := getHumanMetricName metricName
  let percentDisplay := toFixed1 (|percentChange| * 100)
  let direction := if percentChange > 0 then "jumped" else "dropped"
  let confidence := zScoreToConfidence zScore
  let trendWord := if trendType = "trend" then "trending" else direction
  humanMetric ++ " " ++ trendWord ++ " " ++ percentDisplay ++ "% (" ++
    jsNumberToString confidence ++ "% confidence)"

/-- `generateExplanation` (insights.service.js lines 304-327). -/
def generateExplanation (metricName : String) (currentValue expectedValue : ℚ)
    (percentChange : ℚ) (trendType : String) (date : ℤ) : String :=
  let humanMetric := getHumanMetricName metricName
  let direction := if percentChange > 0 then "up" else "down"
  let trendContext := if trendType = "trend" then
      "This is a sustained trend over multiple days."
    else "This appears to be a temporary spike."
  humanMetric ++ " reached " ++ formatMetricValue metricName currentValue ++
    " on " ++ s!"{date}" ++ ", " ++ direction ++ " from an expected " ++
    formatMetricValue metricName expectedValue ++
    " (accounting for day-of-week patterns). " ++ trendContext

/-! ## The per-metric analysis -/

/-- The body of `analyzeMetric`'s loop over the last three samples
(insights.service.js lines 141-192), named so that membership in the
emitted list can be inverted: for one `day`, either the insight pushed for
it, or `none` when its z-score stays below the threshold. -/
def mkDayInsight (sortedData : List MetricSample) (metricName : String)
    (day : MetricSample) : Option AnomalyInsight :=
  let seasonalBaseline := calculateSeasonalBaseline sortedData metricName
  let stdDev := calculateStandardDeviation
    (sortedData.map (fun d => readMetric d metricName))
  let dayOfWeek := jsGetDay day.date
  let currentValue := readMetric day metricName
  let expectedValue := seasonalBaseline dayOfWeek
  let zScore := (currentValue - expectedValue) / stdDev
  if |zScore| ≥ Z_SCORE_THRESHOLD then
    let trendType := classifyTrend sortedData metricName day.date
    let percentChange := (currentValue - expectedValue) / expectedValue
    some
      { date := day.date
        metric := metricName
        currentValue := currentValue
        expectedValue := expectedValue
        percentChange := percentChange
        zScore := zScore
        confidence := zScoreToConfidence zScore
        trendType := trendType
        direction := if percentChange > 0 then "up" else "down"
        impactScore := |percentChange| * 100
        headline := generateHeadline metricName percentChange trendType zScore
        explanation := generateExplanation metricName currentValue
          expectedValue percentChange trendType day.date
        actionItems := getActionItems metricName
          (if percentChange > 0 then "up" else "down") }
  else none

/-- `analyzeMetric` (insights.service.js lines 123-195): baseline and
standard deviation come from the whole (chronologically sorted) series,
and an insight is emitted for each of the last three samples whose z-score
reaches the threshold. -/
def analyzeMetric (sortedData : List MetricSample) (metricName : String) :
    List AnomalyInsight :=
  let recentDays := sortedData.drop (sortedData.length - 3)
  recentDays.filterMap (fun day => mkDayInsight sortedData metricName day)

/-- The metric names analysed (insights.service.js lines 82-88). -/
def metricsToAnalyze : List String :=
  ["sessions", "totalUsers", "conversions", "engagementRate", "bounceRate"]

/-- Chronological sort of the input series (insights.service.js lines
77-79); `Array.prototype.sort` with the comparator
`new Date(a.date) - new Date(b.date)` is a stable sort placing `a` before
`b` iff `a.date ≤ b.date`. -/
def sortChronologically (dailyData : List MetricSample) : List MetricSample :=
  dailyData.mergeSort (fun a b => decide (a.date ≤ b.date))

/-- The comparator of the final ranking sort (insights.service.js lines
101-106): `a` may precede `b` iff the comparator value is `≤ 0`, i.e.
`|b.zScore| ≤ |a.zScore|` when the absolute z-scores differ and
`b.impactScore ≤ a.impactScore` otherwise. -/
def rankLE (a b : AnomalyInsight) : Bool :=
  if |b.zScore| ≠ |a.zScore| then
    decide (|b.zScore| ≤ |a.zScore|)
  else
    decide (b.impactScore ≤ a.impactScore)

/-- `analyzeMetrics` (insights.service.js lines 68-118): the argument is
`Option`-valued because the JS caller may pass `null`/`undefined`.  Sort
the series chronologically, analyse every tracked metric, rank all emitted
insights by `|zScore|` (ties by `impactScore`), keep the statistically
significant ones and return at most the top five. -/
def analyzeMetrics (dailyData : Option (List MetricSample)) :
    List AnomalyInsight :=
  match dailyData with
  | none => []
  | some l =>
    if l.length < MIN_DATA_POINTS then []
    else
      let sortedData := sortChronologically l
      let insights := metricsToAnalyze.flatMap
        (fun metricName => analyzeMetric sortedData metricName)
      let sorted := insights.mergeSort rankLE
      let significantInsights := sorted.filter
        (fun i => decide (|i.zScore| ≥ Z_SCORE_THRESHOLD))
      significantInsights.take 5

/-! ## Scheduler service (`scheduler.service.js`)

Time values are milliseconds since the Unix epoch (`Date.now()`), and the
server's current weekday (`new Date().getDay()`) is an input.  Database and
network collaborators are injected as an environment record: each field
holds the value the corresponding call would produce, with `Except` for
calls whose failure is a thrown exception and `Option` for lookups that
can come back empty or with an error value. -/

/-- The `daysMap` lookup of `shouldSendReportToday`
(scheduler.service.js lines 10-23); an out-of-range key reads as the
missing-property value, modelled by the empty string. -/
def daysMap (dayOfWeek : ℤ) : String :=
  if dayOfWeek = 0 then "Sun"
  else if dayOfWeek = 1 then "Mon"
  else if dayOfWeek = 2 then "Tue"
  else if dayOfWeek = 3 then "Wed"
  else if dayOfWeek = 4 then "Thu"
  else if dayOfWeek = 5 then "Fri"
  else if dayOfWeek = 6 then "Sat"
  else ""

/-- `shouldSendReportToday` (scheduler.service.js lines 10-23), with the
server-evaluated weekday passed in. -/
def shouldSendReportToday (todayWeekday : ℤ) (reportDays : List String) : Bool :=
  reportDays.contains (daysMap todayWeekday)

/-- `getLookbackDays` (scheduler.service.js lines 28-36). -/
def getLookbackDays (subscriptionTier : String) : ℕ :=
  if subscriptionTier = "starter" then 14
  else if subscriptionTier = "growth" then 30
  else if subscriptionTier = "pro" then 60
  else if subscriptionTier = "enterprise" then 90
  else 14

/-- `shouldSendReport` (scheduler.service.js lines 41-53): the starter
tier is limited to one report per 7 days, measured from
`lastEmailSentAt`; every other tier (and a starter with no previous
email) always passes.  The `frequency` argument is accepted and ignored,
as in the source. -/
def shouldSendReport (subscriptionTier : String) (lastEmailSentAt : Option ℤ)
    (frequency : Option String) (now : ℤ) : Bool :=
  if subscriptionTier = "starter" then
    match lastEmailSentAt with
    | some t =>
      let daysSinceLastEmail : ℚ := ((now - t : ℤ) : ℚ) / (1000 * 60 * 60 * 24)
      if daysSinceLastEmail < 7 then false else true
    | none => true
  else true

/-- A row of `email_preferences` as read by the scheduler.  The named
civil timezone is consumed only through the conversion of `now` to the
subscriber's local hour, which the model takes as an input. -/
structure EmailPreferences where
  enabled : Bool
  report_days : Option (List String)
  last_email_sent_at : Option ℤ
  frequency : Option String
  deliveryHour : ℤ
deriving DecidableEq, Repr

/-- The circular hour distance of `shouldSendEmailNow`
(scheduler.service.js lines 407-412): `|Δ|`, folded over the day boundary
when it exceeds 12. -/
def circularHourDiff (currentHours prefHours : ℤ) : ℤ :=
  let hourDiff := |currentHours - prefHours|
  if hourDiff > 12 then 24 - hourDiff else hourDiff

/-- `shouldSendEmailNow` (scheduler.service.js lines 376-429), with the
subscriber's preference row and the current hour in the subscriber's civil
timezone injected: missing or disabled preferences are ineligible, and
otherwise the subscriber is in-window iff the circular hour distance to
the preferred delivery hour is at most one.  (The catch-all that returns
`true` on a thrown collaborator error is outside this pure core.) -/
def shouldSendEmailNow (prefs : Option EmailPreferences)
    (currentHours : ℤ) : Bool :=
  match prefs with
  | none => false
  | some p =>
    if ¬ p.enabled then false
    else decide (circularHourDiff currentHours p.deliveryHour ≤ 1)

/-- A row of `user_profiles` as read by the scheduler. -/
structure UserProfile where
  subscription_status : String
  subscription_tier : String
deriving DecidableEq, Repr

/-- A row of `ga4_connections` as read by the scheduler. -/
structure Ga4Connection where
  id : ℕ
  property_id : String
  access_token : String
  refresh_token : String
  token_expires_at : ℤ
deriving DecidableEq, Repr

/-- The value of `ga4Service.fetchMetrics`. -/
structure MetricsResult where
  hasData : Bool
  daily : List MetricSample
  tokenRefreshed : Bool
  newAccessToken : Option String
deriving DecidableEq, Repr

/-- The collaborator results consumed by one
`processDailyInsightsForUser` call. -/
structure UserEnv where
  now : ℤ
  todayWeekday : ℤ
  profile : Option UserProfile
  emailPref : Option EmailPreferences
  connection : Option Ga4Connection
  refreshedTokens : Except String (String × ℤ)
  metrics : Except String MetricsResult
  connectionCreatedAt : Option ℤ
  sendNoInsightsOk : Bool
  saveError : Option String
  emailSendError : Option String
deriving Repr

/-- The structured per-subscriber result returned by
`processDailyInsightsForUser` (`insightsCount` is `0` where the source
returns an object without that field). -/
structure UserRunResult where
  success : Bool
  error : Option String
  insightsCount : ℕ
deriving DecidableEq, Repr

/-- Which side-effecting steps a `processDailyInsightsForUser` call
reached. -/
structure UserRunTrace where
  fetchAttempted : Bool
  noInsightsEmailSent : Bool
  insightsSaved : Bool
  dailyEmailSent : Bool
deriving DecidableEq, Repr

/-- `processDailyInsightsForUser` (scheduler.service.js lines 58-370):
the per-subscriber state machine.  Every transition failure produces a
structured `{success := false, error}` result; a thrown collaborator error
is converted to the same shape by the function's catch-all.  The second
component records which stages were reached. -/
def processDailyInsightsForUser (env : UserEnv) : UserRunResult × UserRunTrace :=
  let noTrace : UserRunTrace := ⟨false, false, false, false⟩
  match env.profile with
  | none => (⟨false, some "User profile not found", 0⟩, noTrace)
  | some userProfile =>
    if userProfile.subscription_status ≠ "active" then
      (⟨false, some "Inactive subscription", 0⟩, noTrace)
    else
      match env.emailPref with
      | none => (⟨false, some "Email preferences disabled", 0⟩, noTrace)
      | some emailPref =>
        if ¬ emailPref.enabled then
          (⟨false, some "Email preferences disabled", 0⟩, noTrace)
        else
          let reportDays := emailPref.report_days.getD
            ["Mon", "Tue", "Wed", "Thu", "Fri", "Sat", "Sun"]
          if ¬ shouldSendReportToday env.todayWeekday reportDays then
            (⟨false, some "Not scheduled for today", 0⟩, noTrace)
          else if ¬ shouldSendReport userProfile.subscription_tier
              emailPref.last_email_sent_at emailPref.frequency env.now then
            (⟨false, some "Frequency limit reached", 0⟩, noTrace)
          else
            match env.connection with
            | none => (⟨false, some "No active GA4 connection", 0⟩, noTrace)
            | some connection =>
              let refreshOutcome : Except String Unit :=
                if env.now ≥ connection.token_expires_at then
                  env.refreshedTokens.map (fun _ => ())
                else Except.ok ()
              match refreshOutcome with
              | Except.error e => (⟨false, some e, 0⟩, noTrace)
              | Except.ok _ =>
                match env.metrics with
                | Except.error e =>
                  (⟨false, some e, 0⟩, ⟨true, false, false, false⟩)
                | Except.ok metrics =>
                  if ¬ metrics.hasData ∨ metrics.daily = [] then
                    (⟨false, some "No metrics available", 0⟩,
                     ⟨true, false, false, false⟩)
                  else
                    let insights := analyzeMetrics (some metrics.daily)
                    if insights = [] then
                      let sendIt :=
                        match env.connectionCreatedAt with
                        | none => false
                        | some createdAt =>
                          let hoursSinceConnection : ℚ :=
                            ((env.now - createdAt : ℤ) : ℚ) / (1000 * 60 * 60)
                          let daysSinceLastEmail : ℚ :=
                            match emailPref.last_email_sent_at with
                            | some t =>
                              ((env.now - t : ℤ) : ℚ) / (1000 * 60 * 60 * 24)
                            | none => 999
                          decide (hoursSinceConnection ≥ 24) &&
                            decide (daysSinceLastEmail ≥ 7) &&
                            env.sendNoInsightsOk
                      (⟨false, some "No insights generated", 0⟩,
                       ⟨true, sendIt, false, false⟩)
                    else
                      let topInsights := insights.take 3
                      match env.saveError with
                      | some e => (⟨false, some e, 0⟩, ⟨true, false, false, false⟩)
                      | none =>
                        match env.emailSendError with
                        | some e =>
                          (⟨false, some e, 0⟩, ⟨true, false, true, false⟩)
                        | none =>
                          (⟨true, none, topInsights.length⟩,
                           ⟨true, false, true, true⟩)

/-! ## Insight persistence (scheduler.service.js lines 284-312) -/

/-- A row of the `daily_insights` table.  `baseline_value` is `Option`
because the source populates it from `insight.baseline`, a field the
analyzer's insights do not carry, so the stored value is `undefined`. -/
structure DailyInsightRow where
  user_id : String
  ga4_connection_id : ℕ
  insight_date : ℤ
  insight_type : String
  priority : ℕ
  metric_name : String
  metric_value : ℚ
  baseline_value : Option ℚ
  percent_change : ℚ
  direction : String
  headline : String
  explanation : String
  action_item : String
  impact_score : ℚ
deriving DecidableEq, Repr

/-- The upsert conflict target `user_id,insight_date,priority`. -/
def insightRowKey (r : DailyInsightRow) : String × ℤ × ℕ :=
  (r.user_id, r.insight_date, r.priority)

/-- Modelled from the spec: the storage collaborator's row-level upsert
(`supabase.upsert` with `onConflict: "user_id,insight_date,priority"` and
`ignoreDuplicates: false`) is not part of this repository; per the spec it
has "update if exists" semantics on the caller-specified uniqueness key. -/
def upsertRow (table : List DailyInsightRow) (r : DailyInsightRow) :
    List DailyInsightRow :=
  if ∃ x ∈ table, insightRowKey x = insightRowKey r then
    table.map (fun x => if insightRowKey x = insightRowKey r then r else x)
  else
    table ++ [r]

/-- Modelled from the spec: upserting a list of rows, left to right. -/
def upsertRows (table : List DailyInsightRow)
    (rows : List DailyInsightRow) : List DailyInsightRow :=
  rows.foldl upsertRow table

/-- The row built for the insight at 0-based `index` of the top list
(scheduler.service.js lines 290-307); `priority` is the 1-based rank. -/
def insightToRow (userId : String) (connectionId : ℕ) (index : ℕ)
    (insight : AnomalyInsight) : DailyInsightRow :=
  { user_id := userId
    ga4_connection_id := connectionId
    insight_date := insight.date
    insight_type := "ANOMALY"
    priority := index + 1
    metric_name := insight.metric
    metric_value := insight.currentValue
    baseline_value := none
    percent_change := insight.percentChange
    direction := insight.direction
    headline := insight.headline
    explanation := insight.explanation
    action_item := String.intercalate "\n" insight.actionItems
    impact_score := insight.impactScore }

/-- The persistence step of `processDailyInsightsForUser` (lines 284-312):
keep the top three ranked insights and upsert their rows. -/
def persistTopInsights (userId : String) (connectionId : ℕ)
    (insights : List AnomalyInsight) (table : List DailyInsightRow) :
    List DailyInsightRow :=
  let topInsights := insights.take 3
  upsertRows table (topInsights.mapIdx
    (fun index insight => insightToRow userId connectionId index insight))

/-! ## Tick-level orchestration (`runDailyInsightsJob`,
scheduler.service.js lines 435-598) -/

/-- How the subscriber-enumeration step (the `email_preferences` select,
lines 464-472) can come out: the client can return an error value (the
`if (error)` branch, which returns early), the call can throw (reaching
the catch-all), or it can return the enabled user ids. -/
inductive EnumOutcome where
  | thrown (message : String)
  | errorResult (message : String)
  | ok (userIds : List String)
deriving DecidableEq, Repr

/-- The fields written into the `cron_job_runs` row when the tick
finalizes it; counts the respective update does not touch are `none`. -/
structure JobRunFinal where
  status : String
  users_processed : Option ℕ
  emails_sent : Option ℕ
  insights_found : Option ℕ
  errors : Option String
deriving DecidableEq, Repr

/-- The collaborator results consumed by one tick: whether the
`cron_job_runs` insert produced a run id, the enumeration outcome, each
subscriber's delivery-window eligibility (`shouldSendEmailNow`), and each
subscriber's settled `processDailyInsightsForUser` result (that function
catches its own exceptions, so under `Promise.allSettled` every
per-subscriber promise is fulfilled). -/
structure TickEnv where
  runLogCreated : Bool
  enumeration : EnumOutcome
  inWindow : String → Bool
  userOutcome : String → UserRunResult

/-- The value `runDailyInsightsJob` returns (fields the corresponding
return object omits are `none`). -/
structure TickReturn where
  success : Bool
  error : Option String
  processedUsers : Option ℕ
  total : Option ℕ
  skipped : Option ℕ
  successful : Option ℕ
  failed : Option ℕ
  results : List UserRunResult
deriving DecidableEq, Repr

/-- `runDailyInsightsJob` (scheduler.service.js lines 435-598).  Returns
the tick's return value together with the finalization of the
`cron_job_runs` row: `none` means the tick never updated the row, which
leaves it in status `running`.  An enumeration error value and an empty
preference list both return early without finalizing; a thrown error is
the only path to a `failed` finalization; every other path finalizes with
`success` and the aggregate counts. -/
def runDailyInsightsJob (env : TickEnv) : TickReturn × Option JobRunFinal :=
  match env.enumeration with
  | EnumOutcome.thrown e =>
    (⟨false, some e, none, none, none, none, none, []⟩,
     if env.runLogCreated then
       some ⟨"failed", none, none, none, some e⟩
     else none)
  | EnumOutcome.errorResult e =>
    (⟨false, some e, none, none, none, none, none, []⟩, none)
  | EnumOutcome.ok userIds =>
    if userIds.isEmpty then
      (⟨true, none, some 0, none, none, none, none, []⟩, none)
    else
      let usersToProcess := userIds.filter env.inWindow
      if usersToProcess.isEmpty then
        (⟨true, none, some 0, none, some userIds.length, none, none, []⟩,
         if env.runLogCreated then
           some ⟨"success", some 0, some 0, some 0, none⟩
         else none)
      else
        let results := usersToProcess.map env.userOutcome
        let successful := (results.filter (fun r => r.success)).length
        let failed := (results.filter (fun r => ¬ r.success)).length
        let insightsFound :=
          ((results.filter (fun r => r.success)).map
            (fun r => r.insightsCount)).sum
        (⟨true, none, none, some usersToProcess.length,
          some (userIds.length - usersToProcess.length),
          some successful, some failed, results⟩,
         if env.runLogCreated then
           some ⟨"success", some usersToProcess.length, some successful,
             some insightsFound, none⟩
         else none)

/-! ## Derived definitions and concrete inputs used by the claims below -/

/-- A concrete environment for the C9 witness: an active starter-tier
subscriber whose last email went out exactly 3 days before `now`. -/
def starterEnv : UserEnv :=
  { now := 1000000000000
    todayWeekday := 1
    profile := some ⟨"active", "starter"⟩
    emailPref := some ⟨true, none, some 999740800000, none, 14⟩
    connection := some ⟨1, "prop", "tok", "ref", 2000000000000⟩
    refreshedTokens := Except.ok ("tok2", 0)
    metrics := Except.ok ⟨true, [], false, none⟩
    connectionCreatedAt := none
    sendNoInsightsOk := false
    saveError := none
    emailSendError := none }

/-- A tick in which the subscriber-enumeration select comes back with an
error value (the `if (error)` early-return path). -/
def enumErrorEnv : TickEnv :=
  ⟨true, EnumOutcome.errorResult "connection failure",
   fun _ => true, fun _ => ⟨false, some "never reached", 0⟩⟩

/-- A concrete mixed tick: two in-window subscribers, the first pipeline
succeeds with 3 insights, the second fails on its metrics fetch. -/
def mixedTickEnv : TickEnv :=
  ⟨true, EnumOutcome.ok ["alice", "bob"], fun _ => true,
   fun u => if u = "alice" then ⟨true, none, 3⟩
            else ⟨false, some "GA4 fetch failed", 0⟩⟩

/-- The ranking order of the final insight list: by `|zScore|` descending,
ties broken by `impactScore` descending. -/
def rankedBefore (a b : AnomalyInsight) : Prop :=
  |b.zScore| < |a.zScore| ∨
    (|a.zScore| = |b.zScore| ∧ b.impactScore ≤ a.impactScore)

/-- A 7-day series in which every tracked metric is constant. -/
def flatSeries : List MetricSample :=
  [⟨100, some 5, some 5, some 5, some 5, some 5⟩,
   ⟨101, some 5, some 5, some 5, some 5, some 5⟩,
   ⟨102, some 5, some 5, some 5, some 5, some 5⟩,
   ⟨103, some 5, some 5, some 5, some 5, some 5⟩,
   ⟨104, some 5, some 5, some 5, some 5, some 5⟩,
   ⟨105, some 5, some 5, some 5, some 5, some 5⟩,
   ⟨106, some 5, some 5, some 5, some 5, some 5⟩]

/-! ## A concrete 14-day series used by several witnesses: `sessions` is
86, 100×5, 72, 100×6, 142; every other metric is 0.  The population
standard deviation of `sessions` is exactly 14, and the final day sits
exactly 2.5 standard deviations above its weekday baseline (72+142)/2=107. -/

def mkSessionsSample (date : ℤ) (s : ℚ) : MetricSample :=
  ⟨date, some s, some 0, some 0, some 0, some 0⟩

def demoSeries : List MetricSample :=
  [mkSessionsSample 0 86, mkSessionsSample 1 100, mkSessionsSample 2 100,
   mkSessionsSample 3 100, mkSessionsSample 4 100, mkSessionsSample 5 100,
   mkSessionsSample 6 72, mkSessionsSample 7 100, mkSessionsSample 8 100,
   mkSessionsSample 9 100, mkSessionsSample 10 100, mkSessionsSample 11 100,
   mkSessionsSample 12 100, mkSessionsSample 13 142]

/-- The first (and only) insight the analyzer finds in `demoSeries`. -/
def demoInsight : AnomalyInsight := (analyzeMetrics (some demoSeries)).headI

/-- Replacing every missing/null metric field of a sample by an explicit
`0` (the value the source's `|| 0` coercion reads for it). -/
def fillMissing (d : MetricSample) : MetricSample :=
  ⟨d.date, some (d.sessions.getD 0), some (d.totalUsers.getD 0),
   some (d.conversions.getD 0), some (d.engagementRate.getD 0),
   some (d.bounceRate.getD 0)⟩

/-! ## Helper lemmas -/

/-- A list of non-negative rationals with zero sum is all zeros. -/
theorem all_zero_of_sum_eq_zero {xs : List ℚ} (h0 : ∀ x ∈ xs, 0 ≤ x)
    (hs : xs.sum = 0) : ∀ x ∈ xs, x = 0 := by
  induction xs with
  | nil => simp
  | cons a t ih =>
    have ha : 0 ≤ a := h0 a (by simp)
    have ht : 0 ≤ t.sum := List.sum_nonneg (fun x hx => h0 x (by simp [hx]))
    have hsum : a + t.sum = 0 := by simpa using hs
    have ha0 : a = 0 := by linarith
    intro x hx
    rcases List.mem_cons.mp hx with rfl | hx
    · exact ha0
    · exact ih (fun y hy => h0 y (List.mem_cons_of_mem _ hy)) (by linarith) x hx

/-- Inverting membership in `analyzeMetrics`: every returned insight was
produced by `mkDayInsight` for one of the tracked metrics and one of the
last three samples of the chronologically sorted series. -/
theorem mem_analyzeMetrics_inv {l : List MetricSample} {i : AnomalyInsight}
    (h : i ∈ analyzeMetrics (some l)) :
    ∃ m ∈ metricsToAnalyze,
      ∃ day ∈ (sortChronologically l).drop ((sortChronologically l).length - 3),
        mkDayInsight (sortChronologically l) m day = some i := by
  by_cases hlen : l.length < MIN_DATA_POINTS
  · simp only [analyzeMetrics, if_pos hlen] at h
    exact absurd h (List.not_mem_nil i)
  · simp only [analyzeMetrics, if_neg hlen] at h
    have h1 := List.mem_of_mem_take h
    have h2 := (List.mem_filter.mp h1).1
    have h3 := List.mem_mergeSort.mp h2
    obtain ⟨m, hm, hmem⟩ := List.mem_flatMap.mp h3
    simp only [analyzeMetric] at hmem
    obtain ⟨day, hday, heq⟩ := List.mem_filterMap.mp hmem
    exact ⟨m, hm, day, hday, heq⟩

/-- Inverting a successful `mkDayInsight`: the emission test passed and
every field of the insight is the corresponding computed quantity. -/
theorem mkDayInsight_eq_some_inv {sorted : List MetricSample} {m : String}
    {day : MetricSample} {i : AnomalyInsight}
    (h : mkDayInsight sorted m day = some i) :
    |(readMetric day m - calculateSeasonalBaseline sorted m (jsGetDay day.date)) /
        calculateStandardDeviation (sorted.map (fun d => readMetric d m))| ≥
      Z_SCORE_THRESHOLD ∧
    i.date = day.date ∧
    i.metric = m ∧
    i.currentValue = readMetric day m ∧
    i.expectedValue = calculateSeasonalBaseline sorted m (jsGetDay day.date) ∧
    i.zScore = (readMetric day m -
        calculateSeasonalBaseline sorted m (jsGetDay day.date)) /
      calculateStandardDeviation (sorted.map (fun d => readMetric d m)) ∧
    i.percentChange = (readMetric day m -
        calculateSeasonalBaseline sorted m (jsGetDay day.date)) /
      calculateSeasonalBaseline sorted m (jsGetDay day.date) ∧
    i.confidence = zScoreToConfidence i.zScore := by
  simp only [mkDayInsight] at h
  by_cases hc : |(readMetric day m -
      calculateSeasonalBaseline sorted m (jsGetDay day.date)) /
      calculateStandardDeviation (sorted.map (fun d => readMetric d m))| ≥
      Z_SCORE_THRESHOLD
  · rw [if_pos hc] at h
    obtain rfl := Option.some.inj h
    exact ⟨hc, rfl, rfl, rfl, rfl, rfl, rfl, rfl⟩
  · rw [if_neg hc] at h
    exact absurd h (by simp)

/-! ## Claim C1 -/

/-- Claim C1: for every input series that is null/undefined or has fewer
than 7 samples, `analyzeMetrics` returns the empty list, regardless of the
samples' values or dates. -/
theorem analyzeMetrics_insufficient_history
    (dailyData : Option (List MetricSample))
    (h : dailyData = none ∨ ∃ l, dailyData = some l ∧ l.length < 7) :
    analyzeMetrics dailyData = [] := by
  rcases h with rfl | ⟨l, rfl, hl⟩
  · rfl
  · simp only [analyzeMetrics, MIN_DATA_POINTS]
    rw [if_pos hl]

/-- Witness for C1 at a concrete null input and a concrete 3-sample
series. -/
theorem analyzeMetrics_insufficient_history_witness :
    analyzeMetrics (none : Option (List MetricSample)) = [] ∧
    analyzeMetrics (some
      [⟨0, some 50, some 40, some 3, some (1/2), some (1/4)⟩,
       ⟨1, some 60, some 45, some 4, some (1/2), some (1/4)⟩,
       ⟨2, some 70, some 50, some 5, some (1/2), some (1/4)⟩]) = [] :=
  ⟨analyzeMetrics_insufficient_history none (Or.inl rfl),
   analyzeMetrics_insufficient_history _ (Or.inr ⟨_, rfl, by decide⟩)⟩

/-! ## Claim C8 -/

/-- Claim C8: for every preferred hour and current civil hour in 0-23, the
delivery-time gate computes the circular hour distance
`min |Δ| (24 - |Δ|)` and deems the subscriber in-window iff that distance
is at most 1; for preferred hour 23 and current hour 1 the computed
distance is 2, not 22. -/
theorem circularHourDiff_spec (prefHours currentHours : ℤ)
    (hp0 : 0 ≤ prefHours) (hp1 : prefHours ≤ 23)
    (hc0 : 0 ≤ currentHours) (hc1 : currentHours ≤ 23) :
    circularHourDiff currentHours prefHours =
      min |currentHours - prefHours| (24 - |currentHours - prefHours|) ∧
    (∀ p : EmailPreferences, p.enabled = true → p.deliveryHour = prefHours →
      (shouldSendEmailNow (some p) currentHours = true ↔
        circularHourDiff currentHours prefHours ≤ 1)) ∧
    circularHourDiff 1 23 = 2 := by
  refine ⟨?_, ?_, by decide⟩
  · simp only [circularHourDiff]
    rcases abs_cases (currentHours - prefHours) with ⟨he, hsgn⟩ | ⟨he, hsgn⟩ <;>
      rw [he] <;> split_ifs <;> omega
  · intro p hen hdel
    simp [shouldSendEmailNow, hen, hdel]

/-- Witness for C8 at preferred hour 23 and current hour 1. -/
theorem circularHourDiff_spec_witness :
    circularHourDiff 1 23 =
      min |(1 : ℤ) - 23| (24 - |(1 : ℤ) - 23|) ∧
    (∀ p : EmailPreferences, p.enabled = true → p.deliveryHour = 23 →
      (shouldSendEmailNow (some p) 1 = true ↔ circularHourDiff 1 23 ≤ 1)) ∧
    circularHourDiff 1 23 = 2 :=
  circularHourDiff_spec 23 1 (by decide) (by decide) (by decide) (by decide)

/-! ## Claim C9 -/

/-- Claim C9: a subscriber on the lowest (`starter`) tier whose
`lastEmailSentAt` is non-null and strictly less than 7 days before now is
stopped by the frequency gate — the run returns the `Frequency limit
reached` error and no metrics fetch is attempted — while subscribers on
every other tier are never blocked by this gate regardless of
`lastEmailSentAt`. -/
theorem starter_frequency_gate :
    (∀ (env : UserEnv) (profile : UserProfile) (pref : EmailPreferences)
      (t : ℤ),
      env.profile = some profile →
      profile.subscription_status = "active" →
      env.emailPref = some pref →
      pref.enabled = true →
      shouldSendReportToday env.todayWeekday
        (pref.report_days.getD
          ["Mon", "Tue", "Wed", "Thu", "Fri", "Sat", "Sun"]) = true →
      profile.subscription_tier = "starter" →
      pref.last_email_sent_at = some t →
      ((env.now - t : ℤ) : ℚ) / (1000 * 60 * 60 * 24) < 7 →
      processDailyInsightsForUser env =
        (⟨false, some "Frequency limit reached", 0⟩,
         ⟨false, false, false, false⟩)) ∧
    (∀ (tier : String) (lastEmailSentAt : Option ℤ)
      (frequency : Option String) (now : ℤ), tier ≠ "starter" →
      shouldSendReport tier lastEmailSentAt frequency now = true) := by
  constructor
  · intro env profile pref t hprof hstatus hpref hen hrd htier hlast hdays
    have hgate : shouldSendReport profile.subscription_tier
        pref.last_email_sent_at pref.frequency env.now = false := by
      rw [htier, hlast]
      push_cast at hdays
      simp [shouldSendReport, hdays]
    simp [processDailyInsightsForUser, hprof, hstatus, hpref, hen, hrd, hgate]
  · intro tier lastEmailSentAt frequency now htier
    simp [shouldSendReport, htier]

/-- Witness for C9: the starter subscriber of `starterEnv` is stopped with
the frequency-limit error before any fetch, and a `growth`-tier subscriber
passes `shouldSendReport` no matter the last-sent time. -/
theorem starter_frequency_gate_witness :
    processDailyInsightsForUser starterEnv =
      (⟨false, some "Frequency limit reached", 0⟩,
       ⟨false, false, false, false⟩) ∧
    shouldSendReport "growth" (some 999740800000) none 1000000000000 = true :=
  ⟨starter_frequency_gate.1 starterEnv ⟨"active", "starter"⟩
      ⟨true, none, some 999740800000, none, 14⟩ 999740800000
      rfl rfl rfl rfl (by decide) rfl rfl (by norm_num [starterEnv]),
   starter_frequency_gate.2 "growth" (some 999740800000) none 1000000000000
      (by decide)⟩

/-! ## Claim C4 -/

/-- Claim C4: persisting the same ranked insights twice for the same user
leaves exactly one stored row per `(user_id, insight_date, priority)` key —
3 rows in total, not 6 — because the persistence step is an upsert keyed on
that tuple (the three rows carry the distinct priorities 1, 2, 3). -/
theorem persistTopInsights_idempotent (userId : String) (connectionId : ℕ)
    (insights : List AnomalyInsight) (h : 3 ≤ insights.length) :
    persistTopInsights userId connectionId insights
        (persistTopInsights userId connectionId insights []) =
      persistTopInsights userId connectionId insights [] ∧
    (persistTopInsights userId connectionId insights []).length = 3 ∧
    (persistTopInsights userId connectionId insights
        (persistTopInsights userId connectionId insights [])).length = 3 := by
  obtain ⟨a, b, c, rest, rfl⟩ : ∃ a b c rest,
      insights = a :: b :: c :: rest := by
    rcases insights with _ | ⟨a, _ | ⟨b, _ | ⟨c, rest⟩⟩⟩
    · simp at h
    · simp at h
    · simp at h
    · exact ⟨a, b, c, rest, rfl⟩
  refine ⟨?_, ?_, ?_⟩ <;>
    simp [persistTopInsights, upsertRows, upsertRow, insightToRow,
      insightRowKey]

/-- Witness for C4 at three concrete ranked insights. -/
theorem persistTopInsights_idempotent_witness :
    persistTopInsights "user-1" 7
        [⟨19600, "sessions", 142, 107, 35/107, 5/2, 98.8, "trend", "up",
          3500/107, "h1", "e1", ["a1"]⟩,
         ⟨19600, "totalUsers", 90, 60, 1/2, 21/10, 95.4, "spike", "up",
          50, "h2", "e2", ["a2"]⟩,
         ⟨19599, "bounceRate", 1/4, 1/2, -1/2, -2, 95.4, "spike", "down",
          50, "h3", "e3", ["a3"]⟩]
        (persistTopInsights "user-1" 7
          [⟨19600, "sessions", 142, 107, 35/107, 5/2, 98.8, "trend", "up",
            3500/107, "h1", "e1", ["a1"]⟩,
           ⟨19600, "totalUsers", 90, 60, 1/2, 21/10, 95.4, "spike", "up",
            50, "h2", "e2", ["a2"]⟩,
           ⟨19599, "bounceRate", 1/4, 1/2, -1/2, -2, 95.4, "spike", "down",
            50, "h3", "e3", ["a3"]⟩] []) =
      persistTopInsights "user-1" 7
        [⟨19600, "sessions", 142, 107, 35/107, 5/2, 98.8, "trend", "up",
          3500/107, "h1", "e1", ["a1"]⟩,
         ⟨19600, "totalUsers", 90, 60, 1/2, 21/10, 95.4, "spike", "up",
          50, "h2", "e2", ["a2"]⟩,
         ⟨19599, "bounceRate", 1/4, 1/2, -1/2, -2, 95.4, "spike", "down",
          50, "h3", "e3", ["a3"]⟩] [] ∧
    (persistTopInsights "user-1" 7
        [⟨19600, "sessions", 142, 107, 35/107, 5/2, 98.8, "trend", "up",
          3500/107, "h1", "e1", ["a1"]⟩,
         ⟨19600, "totalUsers", 90, 60, 1/2, 21/10, 95.4, "spike", "up",
          50, "h2", "e2", ["a2"]⟩,
         ⟨19599, "bounceRate", 1/4, 1/2, -1/2, -2, 95.4, "spike", "down",
          50, "h3", "e3", ["a3"]⟩] []).length = 3 ∧
    (persistTopInsights "user-1" 7
        [⟨19600, "sessions", 142, 107, 35/107, 5/2, 98.8, "trend", "up",
          3500/107, "h1", "e1", ["a1"]⟩,
         ⟨19600, "totalUsers", 90, 60, 1/2, 21/10, 95.4, "spike", "up",
          50, "h2", "e2", ["a2"]⟩,
         ⟨19599, "bounceRate", 1/4, 1/2, -1/2, -2, 95.4, "spike", "down",
          50, "h3", "e3", ["a3"]⟩]
        (persistTopInsights "user-1" 7
          [⟨19600, "sessions", 142, 107, 35/107, 5/2, 98.8, "trend", "up",
            3500/107, "h1", "e1", ["a1"]⟩,
           ⟨19600, "totalUsers", 90, 60, 1/2, 21/10, 95.4, "spike", "up",
            50, "h2", "e2", ["a2"]⟩,
           ⟨19599, "bounceRate", 1/4, 1/2, -1/2, -2, 95.4, "spike", "down",
            50, "h3", "e3", ["a3"]⟩] [])).length = 3 :=
  persistTopInsights_idempotent "user-1" 7 _ (by decide)

/-! ## Claim C5 -/

/-- Counterexample to claim C5 as stated: when subscriber enumeration
fails with an error result, the tick returns early and the JobRun row is
never finalized at all — it stays in status `running` — rather than being
finalized with status `failed` as the claim asserts. -/
theorem jobRun_failed_counterexample :
    enumErrorEnv.enumeration = EnumOutcome.errorResult "connection failure" ∧
    (runDailyInsightsJob enumErrorEnv).2 = none ∧
    ¬ ∃ j, (runDailyInsightsJob enumErrorEnv).2 = some j ∧
      j.status = "failed" := by
  refine ⟨rfl, rfl, ?_⟩
  rintro ⟨j, hj, -⟩
  rw [show (runDailyInsightsJob enumErrorEnv).2 = none from rfl] at hj
  cases hj

/-- Claim C5 as amended: a tick's JobRun row is finalized with status
`failed` (with the error detail) exactly when the tick body throws — in
this model, when the enumeration step throws; an enumeration failure
reported as an error value (and likewise an empty preference list) leaves
the row unfinalized in status `running`; whenever enumeration succeeds and
the preference list is nonempty, any finalization is `success`; and in the
mixed two-subscriber scenario (one pipeline succeeds, one fails) the tick
summary is `{total := 2, successful := 1, failed := 1}` and the JobRun is
finalized with status `success`. -/
theorem jobRun_finalization :
    (∀ env : TickEnv, env.runLogCreated = true →
      ((∃ j, (runDailyInsightsJob env).2 = some j ∧ j.status = "failed") ↔
        ∃ e, env.enumeration = EnumOutcome.thrown e)) ∧
    (∀ (env : TickEnv) (userIds : List String),
      env.enumeration = EnumOutcome.ok userIds →
      ∀ j, (runDailyInsightsJob env).2 = some j → j.status = "success") ∧
    (∀ (env : TickEnv) (u1 u2 : String),
      env.enumeration = EnumOutcome.ok [u1, u2] →
      env.inWindow u1 = true → env.inWindow u2 = true →
      (env.userOutcome u1).success = true →
      (env.userOutcome u2).success = false →
      (runDailyInsightsJob env).1.total = some 2 ∧
      (runDailyInsightsJob env).1.successful = some 1 ∧
      (runDailyInsightsJob env).1.failed = some 1 ∧
      (env.runLogCreated = true →
        (runDailyInsightsJob env).2 = some ⟨"success", some 2, some 1,
          some ((env.userOutcome u1).insightsCount), none⟩)) := by
  refine ⟨?_, ?_, ?_⟩
  · intro env hrl
    rcases henum : env.enumeration with e | e | userIds
    · simp [runDailyInsightsJob, henum, hrl]
    · simp [runDailyInsightsJob, henum]
    · simp only [runDailyInsightsJob, henum]
      constructor
      · rintro ⟨j, hj, hstatus⟩
        exfalso
        split at hj
        · cases hj
        · split at hj <;> simp_all <;> rw [← hj] at hstatus <;>
            simp at hstatus
      · rintro ⟨e, he⟩
        simp at he
  · intro env userIds henum j hj
    simp only [runDailyInsightsJob, henum] at hj
    split at hj
    · cases hj
    · split at hj <;> split at hj <;> simp at hj <;> rw [← hj]
  · intro env u1 u2 henum hw1 hw2 hs1 hs2
    refine ⟨?_, ?_, ?_, ?_⟩ <;>
      simp [runDailyInsightsJob, henum, hw1, hw2, hs1, hs2]

/-- Witness for the amended C5 at the concrete mixed tick. -/
theorem jobRun_finalization_witness :
    (runDailyInsightsJob mixedTickEnv).1.total = some 2 ∧
    (runDailyInsightsJob mixedTickEnv).1.successful = some 1 ∧
    (runDailyInsightsJob mixedTickEnv).1.failed = some 1 ∧
    (mixedTickEnv.runLogCreated = true →
      (runDailyInsightsJob mixedTickEnv).2 = some ⟨"success", some 2, some 1,
        some ((mixedTickEnv.userOutcome "alice").insightsCount), none⟩) :=
  jobRun_finalization.2.2 mixedTickEnv "alice" "bob" rfl rfl rfl
    (by decide) (by decide)

/-! ## Claim C6 -/

/-- `rankLE` decides exactly the `rankedBefore` order. -/
theorem rankLE_eq_true_iff (a b : AnomalyInsight) :
    rankLE a b = true ↔ rankedBefore a b := by
  simp only [rankLE, rankedBefore]
  split_ifs with h
  · simp only [decide_eq_true_eq]
    constructor
    · intro hle
      exact Or.inl (lt_of_le_of_ne hle h)
    · rintro (hlt | ⟨heq, -⟩)
      · exact le_of_lt hlt
      · exact absurd heq.symm h
  · push_neg at h
    simp only [decide_eq_true_eq]
    constructor
    · intro him
      exact Or.inr ⟨h.symm, him⟩
    · rintro (hlt | ⟨-, him⟩)
      · rw [h] at hlt
        exact absurd hlt (lt_irrefl _)
      · exact him

/-- `rankLE` is total. -/
theorem rankLE_total : ∀ a b : AnomalyInsight, rankLE a b || rankLE b a := by
  intro a b
  rw [Bool.or_eq_true, rankLE_eq_true_iff, rankLE_eq_true_iff]
  rcases lt_trichotomy |a.zScore| |b.zScore| with h | h | h
  · exact Or.inr (Or.inl h)
  · rcases le_total a.impactScore b.impactScore with him | him
    · exact Or.inr (Or.inr ⟨h.symm, him⟩)
    · exact Or.inl (Or.inr ⟨h, him⟩)
  · exact Or.inl (Or.inl h)

/-- `rankLE` is transitive. -/
theorem rankLE_trans : ∀ a b c : AnomalyInsight,
    rankLE a b → rankLE b c → rankLE a c := by
  intro a b c h1 h2
  rw [rankLE_eq_true_iff] at h1 h2 ⊢
  rcases h1 with h1 | ⟨e1, i1⟩ <;> rcases h2 with h2 | ⟨e2, i2⟩
  · exact Or.inl (h2.trans h1)
  · exact Or.inl (by rw [← e2]; exact h1)
  · exact Or.inl (by rw [e1]; exact h2)
  · exact Or.inr ⟨e1.trans e2, i2.trans i1⟩

/-- Claim C6: the list `analyzeMetrics` returns is sorted by `|zScore|`
descending with ties broken by `impactScore` descending, every returned
insight has `|zScore| ≥ 2.0`, and the list holds at most 5 insights. -/
theorem analyzeMetrics_ranked (dailyData : Option (List MetricSample)) :
    List.Pairwise rankedBefore (analyzeMetrics dailyData) ∧
    (∀ i ∈ analyzeMetrics dailyData, |i.zScore| ≥ Z_SCORE_THRESHOLD) ∧
    (analyzeMetrics dailyData).length ≤ 5 := by
  match dailyData with
  | none => simp [analyzeMetrics]
  | some l =>
    by_cases hlen : l.length < MIN_DATA_POINTS
    · simp [analyzeMetrics, hlen]
    · refine ⟨?_, ?_, ?_⟩
      · simp only [analyzeMetrics, if_neg hlen]
        have hsorted := List.sorted_mergeSort rankLE_trans rankLE_total
          (metricsToAnalyze.flatMap
            (fun metricName => analyzeMetric (sortChronologically l) metricName))
        have hranked : List.Pairwise rankedBefore
            ((metricsToAnalyze.flatMap
              (fun metricName =>
                analyzeMetric (sortChronologically l) metricName)).mergeSort
              rankLE) :=
          hsorted.imp (fun h => (rankLE_eq_true_iff _ _).mp h)
        exact List.Pairwise.sublist (List.take_sublist _ _) (hranked.filter _)
      · intro i hi
        simp only [analyzeMetrics, if_neg hlen] at hi
        have h1 := List.mem_of_mem_take hi
        exact of_decide_eq_true (List.mem_filter.mp h1).2
      · simp only [analyzeMetrics, if_neg hlen]
        rw [List.length_take]
        exact min_le_left _ _

/-! ## Claim C2 -/

/-- With a zero standard deviation, no day of the metric passes the
emission test, so `analyzeMetric` emits nothing.  (In the model, division
by the zero standard deviation yields `0`; in JS it yields `NaN` because a
zero-variance series is constant and the numerator is then also zero —
either way the `|zScore| >= 2` test is false.) -/
theorem analyzeMetric_eq_nil_of_stdDev_zero {sorted : List MetricSample}
    {m : String}
    (h : calculateStandardDeviation (sorted.map (fun d => readMetric d m)) = 0) :
    analyzeMetric sorted m = [] := by
  simp only [analyzeMetric]
  apply List.filterMap_eq_nil_iff.mpr
  intro day hday
  simp only [mkDayInsight, h, div_zero]
  rw [if_neg]
  norm_num [Z_SCORE_THRESHOLD]

/-- Claim C2: for every series of at least 7 samples in which a metric's
population standard deviation over the whole series is 0 (the metric is
constant), `analyzeMetrics` emits no insight for that metric; in
particular, a series of at least 7 samples in which every tracked metric
is constant yields the empty list. -/
theorem analyzeMetrics_constant_metric :
    (∀ (l : List MetricSample) (m : String), 7 ≤ l.length →
      calculateStandardDeviation
        ((sortChronologically l).map (fun d => readMetric d m)) = 0 →
      ∀ i ∈ analyzeMetrics (some l), i.metric ≠ m) ∧
    (∀ l : List MetricSample, 7 ≤ l.length →
      (∀ m ∈ metricsToAnalyze,
        calculateStandardDeviation
          ((sortChronologically l).map (fun d => readMetric d m)) = 0) →
      analyzeMetrics (some l) = []) := by
  constructor
  · intro l m h7 hstd i hi hmetric
    obtain ⟨m', hm', day, hday, heq⟩ := mem_analyzeMetrics_inv hi
    obtain ⟨hcond, -, hmeq, -⟩ := mkDayInsight_eq_some_inv heq
    have hmm : m' = m := by rw [← hmeq, hmetric]
    subst hmm
    rw [hstd, div_zero, abs_zero] at hcond
    norm_num [Z_SCORE_THRESHOLD] at hcond
  · intro l h7 hall
    have hlen : ¬(l.length < MIN_DATA_POINTS) := by
      simp only [MIN_DATA_POINTS]
      omega
    simp only [analyzeMetrics, if_neg hlen]
    have hflat : metricsToAnalyze.flatMap
        (fun metricName => analyzeMetric (sortChronologically l) metricName) =
        [] := by
      apply List.flatMap_eq_nil_iff.mpr
      intro m hm
      exact analyzeMetric_eq_nil_of_stdDev_zero (hall m hm)
    rw [hflat]
    simp

/-- `flatSeries` is already chronological. -/
theorem flatSeries_sorted : sortChronologically flatSeries = flatSeries := by
  apply List.mergeSort_of_sorted
  decide

/-- Every tracked metric of `flatSeries` has zero standard deviation. -/
theorem flatSeries_stdDev_zero : ∀ m ∈ metricsToAnalyze,
    calculateStandardDeviation
      ((sortChronologically flatSeries).map (fun d => readMetric d m)) = 0 := by
  intro m hm
  rw [flatSeries_sorted]
  fin_cases hm <;>
    simp [calculateStandardDeviation, flatSeries, readMetric, metricField] <;>
    norm_num [Rat.sqrt]

/-- Witness for C2: the 7-day all-constant series analyses to the empty
list. -/
theorem analyzeMetrics_constant_metric_witness :
    analyzeMetrics (some flatSeries) = [] :=
  analyzeMetrics_constant_metric.2 flatSeries (by decide) flatSeries_stdDev_zero

theorem demo_sort : sortChronologically demoSeries = demoSeries := by
  apply List.mergeSort_of_sorted
  decide

theorem demo_std : calculateStandardDeviation
    (demoSeries.map (fun d => readMetric d "sessions")) = 14 := by
  simp [calculateStandardDeviation, demoSeries, mkSessionsSample, readMetric,
    metricField]
  norm_num [Rat.sqrt]

theorem demo_base13 : calculateSeasonalBaseline demoSeries "sessions"
    (jsGetDay 13) = 107 := by
  simp [calculateSeasonalBaseline, demoSeries, mkSessionsSample, readMetric,
    metricField, jsGetDay] <;> norm_num

theorem demo_base11 : calculateSeasonalBaseline demoSeries "sessions"
    (jsGetDay 11) = 100 := by
  simp [calculateSeasonalBaseline, demoSeries, mkSessionsSample, readMetric,
    metricField, jsGetDay] <;> norm_num

theorem demo_base12 : calculateSeasonalBaseline demoSeries "sessions"
    (jsGetDay 12) = 100 := by
  simp [calculateSeasonalBaseline, demoSeries, mkSessionsSample, readMetric,
    metricField, jsGetDay] <;> norm_num

theorem demo_d11 : mkDayInsight demoSeries "sessions"
    (mkSessionsSample 11 100) = none := by
  simp [mkDayInsight, mkSessionsSample, readMetric, metricField, demo_base11,
    demo_std, Z_SCORE_THRESHOLD]

theorem demo_d12 : mkDayInsight demoSeries "sessions"
    (mkSessionsSample 12 100) = none := by
  simp [mkDayInsight, mkSessionsSample, readMetric, metricField, demo_base12,
    demo_std, Z_SCORE_THRESHOLD]

theorem demo_d13 : ∃ i, mkDayInsight demoSeries "sessions"
    (mkSessionsSample 13 142) = some i ∧
    i.date = 13 ∧ i.metric = "sessions" ∧ i.currentValue = 142 ∧
    i.expectedValue = 107 ∧ i.zScore = 5/2 ∧ i.confidence = 98.8 ∧
    i.percentChange = 35/107 := by
  simp only [mkDayInsight, mkSessionsSample, Z_SCORE_THRESHOLD, demo_base13,
    demo_std,
    show readMetric ⟨13, some 142, some 0, some 0, some 0, some 0⟩
        "sessions" = 142 from by simp [readMetric, metricField]]
  rw [if_pos (by rw [abs_of_nonneg (by norm_num)] <;> norm_num)]
  refine ⟨_, rfl, rfl, rfl, rfl, rfl, by norm_num, ?_, by norm_num⟩
  have habs : |(5 / 2 : ℚ)| = 5 / 2 := abs_of_nonneg (by norm_num)
  norm_num [zScoreToConfidence, habs]

theorem demo_totalUsers : analyzeMetric demoSeries "totalUsers" = [] := by
  simp [analyzeMetric, mkDayInsight, calculateSeasonalBaseline,
    calculateStandardDeviation, readMetric, metricField, jsGetDay, demoSeries,
    mkSessionsSample, Z_SCORE_THRESHOLD]

theorem demo_conversions : analyzeMetric demoSeries "conversions" = [] := by
  simp [analyzeMetric, mkDayInsight, calculateSeasonalBaseline,
    calculateStandardDeviation, readMetric, metricField, jsGetDay, demoSeries,
    mkSessionsSample, Z_SCORE_THRESHOLD]

theorem demo_engagementRate : analyzeMetric demoSeries "engagementRate" = [] := by
  simp [analyzeMetric, mkDayInsight, calculateSeasonalBaseline,
    calculateStandardDeviation, readMetric, metricField, jsGetDay, demoSeries,
    mkSessionsSample, Z_SCORE_THRESHOLD]

theorem demo_bounceRate : analyzeMetric demoSeries "bounceRate" = [] := by
  simp [analyzeMetric, mkDayInsight, calculateSeasonalBaseline,
    calculateStandardDeviation, readMetric, metricField, jsGetDay, demoSeries,
    mkSessionsSample, Z_SCORE_THRESHOLD]

theorem demo_sessions_list : ∃ i, analyzeMetric demoSeries "sessions" = [i] ∧
    i.date = 13 ∧ i.metric = "sessions" ∧ i.currentValue = 142 ∧
    i.expectedValue = 107 ∧ i.zScore = 5/2 ∧ i.confidence = 98.8 ∧
    i.percentChange = 35/107 := by
  obtain ⟨i, hi, hf⟩ := demo_d13
  refine ⟨i, ?_, hf⟩
  have hdrop : demoSeries.drop (demoSeries.length - 3) =
      [mkSessionsSample 11 100, mkSessionsSample 12 100,
       mkSessionsSample 13 142] := rfl
  simp only [analyzeMetric, hdrop, List.filterMap_cons, List.filterMap_nil,
    demo_d11, demo_d12, hi]

theorem demo_analyzeMetrics : ∃ i, analyzeMetrics (some demoSeries) = [i] ∧
    i.date = 13 ∧ i.metric = "sessions" ∧ i.currentValue = 142 ∧
    i.expectedValue = 107 ∧ i.zScore = 5/2 ∧ i.confidence = 98.8 ∧
    i.percentChange = 35/107 := by
  obtain ⟨i, hi, hdate, hmetric, hcv, hev, hz, hconf, hpc⟩ := demo_sessions_list
  refine ⟨i, ?_, hdate, hmetric, hcv, hev, hz, hconf, hpc⟩
  have hlen : ¬(demoSeries.length < MIN_DATA_POINTS) := by decide
  have hfil : decide (|i.zScore| ≥ Z_SCORE_THRESHOLD) = true := by
    rw [hz]
    rw [show |(5 / 2 : ℚ)| = 5 / 2 from abs_of_nonneg (by norm_num)]
    norm_num [Z_SCORE_THRESHOLD]
  simp only [analyzeMetrics, if_neg hlen, demo_sort, metricsToAnalyze,
    List.flatMap_cons, List.flatMap_nil, demo_totalUsers, demo_conversions,
    demo_engagementRate, demo_bounceRate, hi, List.append_nil,
    List.nil_append, List.mergeSort_singleton, List.filter_cons, hfil,
    if_true, List.filter_nil, List.take_succ_cons, List.take_nil]

/-- `demoInsight` is the single insight of `demoSeries`, with the computed
statistics. -/
theorem demoInsight_spec : analyzeMetrics (some demoSeries) = [demoInsight] ∧
    demoInsight.date = 13 ∧ demoInsight.metric = "sessions" ∧
    demoInsight.currentValue = 142 ∧ demoInsight.expectedValue = 107 ∧
    demoInsight.zScore = 5/2 ∧ demoInsight.confidence = 98.8 ∧
    demoInsight.percentChange = 35/107 := by
  obtain ⟨i, hi, h⟩ := demo_analyzeMetrics
  have hdi : demoInsight = i := by rw [demoInsight, hi]; rfl
  rw [hdi, hi]
  exact ⟨rfl, h⟩

/-- Witness for C6 at `demoSeries` and its emitted insight. -/
theorem analyzeMetrics_ranked_witness :
    List.Pairwise rankedBefore (analyzeMetrics (some demoSeries)) ∧
    |demoInsight.zScore| ≥ Z_SCORE_THRESHOLD ∧
    (analyzeMetrics (some demoSeries)).length ≤ 5 :=
  ⟨(analyzeMetrics_ranked (some demoSeries)).1,
   (analyzeMetrics_ranked (some demoSeries)).2.1 demoInsight
     (by rw [demoInsight_spec.1]; exact List.mem_singleton_self _),
   (analyzeMetrics_ranked (some demoSeries)).2.2⟩

/-! ## Claim C7 -/

/-- Claim C7: when a recent sample's value for a metric sits exactly 2.5
population standard deviations above that metric's seasonal baseline for
the sample's weekday, the insight emitted for that sample carries zScore
2.5 and confidence label 98.8; and in general the confidence label is the
function of `|zScore|` given by the breakpoints ≥3.0→99.7, ≥2.5→98.8,
≥2.0→95.4, else 90.0. -/
theorem analyzeMetrics_zscore_25 :
    (∀ (l : List MetricSample) (D : ℤ) (m : String) (i : AnomalyInsight),
      (∀ day ∈ sortChronologically l, day.date = D →
        readMetric day m =
          calculateSeasonalBaseline (sortChronologically l) m (jsGetDay D) +
            5/2 * calculateStandardDeviation
              ((sortChronologically l).map (fun d => readMetric d m))) →
      i ∈ analyzeMetrics (some l) → i.date = D → i.metric = m →
      i.zScore = 5/2 ∧ i.confidence = 98.8) ∧
    (∀ z : ℚ, zScoreToConfidence z =
      if |z| ≥ 3 then 99.7 else if |z| ≥ 2.5 then 98.8
      else if |z| ≥ 2 then 95.4 else 90.0) := by
  constructor
  · intro l D m i hval hi hdate hmetric
    obtain ⟨m', hm', day, hday, heq⟩ := mem_analyzeMetrics_inv hi
    obtain ⟨hcond, hdeq, hmeq, hcv, hev, hz, hpc, hconf⟩ :=
      mkDayInsight_eq_some_inv heq
    have hmm : m' = m := by rw [← hmeq, hmetric]
    rw [hmm] at hcond hcv hev hz hpc
    have hdd : day.date = D := by rw [← hdeq, hdate]
    have hdaymem : day ∈ sortChronologically l := List.mem_of_mem_drop hday
    have hspec := hval day hdaymem hdd
    rw [hdd] at hz hcond
    rw [hspec] at hz hcond
    have hsne : calculateStandardDeviation
        ((sortChronologically l).map (fun d => readMetric d m)) ≠ 0 := by
      intro h0
      rw [h0, div_zero, abs_zero] at hcond
      norm_num [Z_SCORE_THRESHOLD] at hcond
    have hz25 : i.zScore = 5/2 := by
      rw [hz, add_sub_cancel_left, mul_div_assoc, div_self hsne, mul_one]
    refine ⟨hz25, ?_⟩
    rw [hconf, hz25]
    have habs : |(5 / 2 : ℚ)| = 5 / 2 := abs_of_nonneg (by norm_num)
    norm_num [zScoreToConfidence, habs]
  · intro z
    rfl

/-- Witness for C7 at `demoSeries`, day 13, metric `sessions`. -/
theorem analyzeMetrics_zscore_25_witness :
    demoInsight.zScore = 5/2 ∧ demoInsight.confidence = 98.8 :=
  analyzeMetrics_zscore_25.1 demoSeries 13 "sessions" demoInsight
    (by
      rw [demo_sort]
      intro day hday hdd
      rw [demo_base13, demo_std]
      simp only [demoSeries, List.mem_cons, List.not_mem_nil, or_false] at hday
      rcases hday with rfl | rfl | rfl | rfl | rfl | rfl | rfl | rfl | rfl |
        rfl | rfl | rfl | rfl | rfl <;>
        first
        | (exact absurd hdd (by decide))
        | (simp [mkSessionsSample, readMetric, metricField]; norm_num))
    (by rw [demoInsight_spec.1]; exact List.mem_singleton_self _)
    demoInsight_spec.2.1 demoInsight_spec.2.2.1

/-! ## Claim C3 -/

/-- Claim C3: for every emitted insight, `percentChange` equals
`(currentValue - expectedValue) / expectedValue`, and no insight is ever
emitted whose seasonal-baseline expected value is 0.  The spec's data
model (section 3) declares all metric values non-negative, which is taken
as a hypothesis: the baseline group of the emitted sample's weekday
contains the sample itself, so a zero baseline forces a zero current value
and a zero z-score, which fails the emission threshold.  (The source has
no explicit `expected == 0` guard; on its declared input domain the
z-score threshold plays that role.) -/
theorem percentChange_formula (l : List MetricSample)
    (hpos : ∀ d ∈ l, ∀ m : String, 0 ≤ readMetric d m) :
    ∀ i ∈ analyzeMetrics (some l),
      i.percentChange = (i.currentValue - i.expectedValue) / i.expectedValue ∧
      i.expectedValue ≠ 0 := by
  intro i hi
  obtain ⟨m, hm, day, hday, heq⟩ := mem_analyzeMetrics_inv hi
  obtain ⟨hcond, hdeq, hmeq, hcv, hev, hz, hpc, hconf⟩ :=
    mkDayInsight_eq_some_inv heq
  refine ⟨by rw [hpc, hcv, hev], ?_⟩
  rw [hev]
  intro h0
  have hdaymem : day ∈ sortChronologically l := List.mem_of_mem_drop hday
  have hmemf : day ∈ (sortChronologically l).filter
      (fun d => decide (jsGetDay d.date = jsGetDay day.date)) :=
    List.mem_filter.mpr ⟨hdaymem, by simp⟩
  have hvmem : readMetric day m ∈ ((sortChronologically l).filter
      (fun d => decide (jsGetDay d.date = jsGetDay day.date))).map
      (fun d => readMetric d m) := List.mem_map_of_mem _ hmemf
  have hlenpos : 0 < (((sortChronologically l).filter
      (fun d => decide (jsGetDay d.date = jsGetDay day.date))).map
      (fun d => readMetric d m)).length :=
    List.length_pos.mpr (List.ne_nil_of_mem hvmem)
  have hbl : calculateSeasonalBaseline (sortChronologically l) m
      (jsGetDay day.date) =
      ((((sortChronologically l).filter
        (fun d => decide (jsGetDay d.date = jsGetDay day.date))).map
        (fun d => readMetric d m)).sum) /
      (((((sortChronologically l).filter
        (fun d => decide (jsGetDay d.date = jsGetDay day.date))).map
        (fun d => readMetric d m)).length : ℚ)) := by
    simp only [calculateSeasonalBaseline]
    rw [if_pos hlenpos]
  have hlenne : (((((sortChronologically l).filter
      (fun d => decide (jsGetDay d.date = jsGetDay day.date))).map
      (fun d => readMetric d m)).length : ℚ)) ≠ 0 :=
    Nat.cast_ne_zero.mpr (Nat.pos_iff_ne_zero.mp hlenpos)
  rw [hbl] at h0
  have hsum0 : ((((sortChronologically l).filter
      (fun d => decide (jsGetDay d.date = jsGetDay day.date))).map
      (fun d => readMetric d m)).sum) = 0 := by
    rcases div_eq_zero_iff.mp h0 with h | h
    · exact h
    · exact absurd h hlenne
  have hnonneg : ∀ x ∈ (((sortChronologically l).filter
      (fun d => decide (jsGetDay d.date = jsGetDay day.date))).map
      (fun d => readMetric d m)), 0 ≤ x := by
    intro x hx
    obtain ⟨d, hd, rfl⟩ := List.mem_map.mp hx
    have hdl : d ∈ l := by
      have hmem := (List.mem_filter.mp hd).1
      simp only [sortChronologically] at hmem
      exact List.mem_mergeSort.mp hmem
    exact hpos d hdl m
  have hcv0 : readMetric day m = 0 :=
    all_zero_of_sum_eq_zero hnonneg hsum0 _ hvmem
  have hb0 : calculateSeasonalBaseline (sortChronologically l) m
      (jsGetDay day.date) = 0 := by
    rw [hbl, hsum0, zero_div]
  rw [hcv0, hb0] at hcond
  norm_num [Z_SCORE_THRESHOLD] at hcond

/-- Witness for C3 at `demoSeries` (whose metric values are all
non-negative) and its emitted insight. -/
theorem percentChange_formula_witness :
    demoInsight.percentChange =
      (demoInsight.currentValue - demoInsight.expectedValue) /
        demoInsight.expectedValue ∧
    demoInsight.expectedValue ≠ 0 :=
  percentChange_formula demoSeries
    (by
      intro d hd m
      simp only [demoSeries, List.mem_cons, List.not_mem_nil, or_false] at hd
      rcases hd with rfl | rfl | rfl | rfl | rfl | rfl | rfl | rfl | rfl |
        rfl | rfl | rfl | rfl | rfl <;>
        (simp [mkSessionsSample, readMetric, metricField]
         split_ifs <;> norm_num))
    demoInsight (by rw [demoInsight_spec.1]; exact List.mem_singleton_self _)

/-! ## Claim C10 -/

/-- Every metric read of a filled sample is unchanged. -/
theorem readMetric_fillMissing (d : MetricSample) (m : String) :
    readMetric (fillMissing d) m = readMetric d m := by
  simp only [readMetric, metricField, fillMissing]
  split_ifs <;> simp

/-- The extracted value lists are unchanged by filling. -/
theorem values_fillMissing (l : List MetricSample) (m : String) :
    (l.map fillMissing).map (fun d => readMetric d m) =
      l.map (fun d => readMetric d m) := by
  rw [List.map_map]
  exact List.map_congr_left (fun d _ => readMetric_fillMissing d m)

/-- The seasonal baseline is unchanged by filling. -/
theorem calculateSeasonalBaseline_fillMissing (l : List MetricSample)
    (m : String) (w : ℤ) :
    calculateSeasonalBaseline (l.map fillMissing) m w =
      calculateSeasonalBaseline l m w := by
  simp only [calculateSeasonalBaseline]
  rw [List.filter_map]
  have hfc : l.filter ((fun d => decide (jsGetDay d.date = w)) ∘ fillMissing) =
      l.filter (fun d => decide (jsGetDay d.date = w)) :=
    List.filter_congr (fun d _ => rfl)
  rw [hfc, List.map_map]
  have hmc : (l.filter (fun d => decide (jsGetDay d.date = w))).map
      ((fun d => readMetric d m) ∘ fillMissing) =
      (l.filter (fun d => decide (jsGetDay d.date = w))).map
      (fun d => readMetric d m) :=
    List.map_congr_left (fun d _ => readMetric_fillMissing d m)
  rw [hmc, values_fillMissing]

/-- The trend classification is unchanged by filling. -/
theorem classifyTrend_fillMissing (l : List MetricSample) (m : String)
    (t : ℤ) :
    classifyTrend (l.map fillMissing) m t = classifyTrend l m t := by
  simp only [classifyTrend]
  rw [List.findIdx?_map]
  have hidx : l.findIdx? ((fun d => decide (d.date = t)) ∘ fillMissing) =
      l.findIdx? (fun d => decide (d.date = t)) := rfl
  rw [hidx]
  cases l.findIdx? (fun d => decide (d.date = t)) with
  | none => rfl
  | some targetIndex =>
    simp only
    split
    · rfl
    · rw [← List.map_drop, ← List.map_take, List.map_map]
      have hm : ((l.drop (targetIndex - TREND_WINDOW + 1)).take
          TREND_WINDOW).map ((fun d => readMetric d m) ∘ fillMissing) =
          ((l.drop (targetIndex - TREND_WINDOW + 1)).take TREND_WINDOW).map
          (fun d => readMetric d m) :=
        List.map_congr_left (fun d _ => readMetric_fillMissing d m)
      rw [hm]

/-- A single day's emission decision and insight are unchanged by
filling. -/
theorem mkDayInsight_fillMissing (l : List MetricSample) (m : String)
    (day : MetricSample) :
    mkDayInsight (l.map fillMissing) m (fillMissing day) =
      mkDayInsight l m day := by
  simp only [mkDayInsight, values_fillMissing,
    calculateSeasonalBaseline_fillMissing, classifyTrend_fillMissing,
    readMetric_fillMissing]
  rfl

/-- The per-metric analysis is unchanged by filling. -/
theorem analyzeMetric_fillMissing (l : List MetricSample) (m : String) :
    analyzeMetric (l.map fillMissing) m = analyzeMetric l m := by
  simp only [analyzeMetric, List.length_map]
  rw [← List.map_drop, List.filterMap_map]
  exact List.filterMap_congr (fun d _ => mkDayInsight_fillMissing l m d)

/-- Claim C10: a sample whose metric field is missing/null is read as `0`
everywhere the analyzer touches it — the weekday baselines and their
overall-mean fallback, the standard deviation's value list, the trend
window, and the current value tested against the threshold — rather than
being rejected or skipped: analysing a series with every missing field
replaced by an explicit `0` gives exactly the same result as analysing the
original series. -/
theorem analyzeMetrics_fillMissing :
    (∀ (d : MetricSample) (m : String),
      readMetric (fillMissing d) m = readMetric d m) ∧
    (∀ (l : List MetricSample) (m : String) (w : ℤ),
      calculateSeasonalBaseline (l.map fillMissing) m w =
        calculateSeasonalBaseline l m w) ∧
    (∀ (l : List MetricSample) (m : String),
      (l.map fillMissing).map (fun d => readMetric d m) =
        l.map (fun d => readMetric d m) ∧
      (l.map (fun d => readMetric d m)).length = l.length) ∧
    (∀ (l : List MetricSample) (m : String) (t : ℤ),
      classifyTrend (l.map fillMissing) m t = classifyTrend l m t) ∧
    (∀ dailyData : Option (List MetricSample),
      analyzeMetrics (dailyData.map (fun l => l.map fillMissing)) =
        analyzeMetrics dailyData) := by
  refine ⟨readMetric_fillMissing, calculateSeasonalBaseline_fillMissing,
    fun l m => ⟨values_fillMissing l m, List.length_map l _⟩,
    classifyTrend_fillMissing, ?_⟩
  intro dailyData
  match dailyData with
  | none => rfl
  | some l =>
    show analyzeMetrics (some (l.map fillMissing)) = analyzeMetrics (some l)
    simp only [analyzeMetrics, List.length_map]
    by_cases hc : l.length < MIN_DATA_POINTS
    · rw [if_pos hc, if_pos hc]
    · rw [if_neg hc, if_neg hc]
      have hsort : sortChronologically (l.map fillMissing) =
          (sortChronologically l).map fillMissing := by
        simp only [sortChronologically]
        exact (List.map_mergeSort (f := fillMissing)
          (r := fun a b => decide (a.date ≤ b.date))
          (s := fun a b => decide (a.date ≤ b.date))
          (fun a _ b _ => rfl)).symm
      rw [hsort]
      simp only [metricsToAnalyze, List.flatMap_cons, List.flatMap_nil,
        analyzeMetric_fillMissing]
